import Mathlib

/-!
# Verification of the `react-data-fetch` DataFetch mixin

Shallow embedding of the DataFetch mixin (the factory version shipped in the
repository, whose methods are `componentWillMount`, `componentWillReceiveProps`,
`componentWillUnmount`, `refreshData`, `stopFetching`, `stopPolling`,
`resumePolling`, `receiveDataFromServer`, `_resetData`, `_clearDataRequests`,
`_startPolling`, `_clearPolling`, `_getDataUrl`, `_fetchDataFromServer`,
`_shouldWePoll`).

Modelling choices:
* React `props` become a `Props` record.  Besides `dataUrl` and `pollInterval`
  it holds an `extra : Nat` field standing for the arbitrary other props a
  custom `getDataUrl` resolver may read.
* A falsy data URL (`null` / `undefined` / `""`) is modelled as `none`;
  the truthiness test `if (dataUrl)` becomes `Option.isSome`.
* `setState` calls are logged in `updates` (partial-state updates, absent keys
  modelled by `none`); the merged component state lives in `state`.
* `$.ajax` calls are logged in `getsIssued` (the `url:` field of each GET).
  Each call yields a `Request` with a fresh id, pushed on `xhrRequests`;
  `abort()` is logged in `aborts`.
* `setInterval` registers a `Timer` in the environment's `activeTimers` list
  (with a fresh id) and stores the id in `pollIntervalId` (`this._pollInterval`);
  `clearInterval` removes the timer with that id (`clearInterval(null)` is a
  no-op).  `elapse` models the passing of one poll interval: every live timer
  fires its callback once.
* The transport may deliver the captured `success`/`error`/`complete`
  callbacks of any request at any later time (`deliverSuccess`,
  `deliverError`); jQuery runs `complete` after `success`/`error`.
* The factory option `onError` hook is observed through the `onErrorCalls`
  log, recording the original arguments `(xhr.status, status, err)`; the
  source invokes it via `options.onError.apply(this, arguments)`, i.e. with
  the component as call context (implicit here).  The response payload is
  modelled as a `Nat`.
-/

/-- React props consumed by the mixin: `dataUrl`, `pollInterval`, plus a stand-in
for any other props a custom `getDataUrl` resolver may consult. -/
structure Props where
  dataUrl : Option String
  pollInterval : Nat
  extra : Nat
deriving DecidableEq, Repr

/-- The `dataError` state shape built in `onError`:
`{url, statusCode: xhr.status, statusText: status, message: err.toString()}`. -/
structure ErrorInfo where
  url : Option String
  statusCode : Nat
  statusText : String
  message : String
deriving DecidableEq, Repr

/-- A partial-state update passed to `setState`; `none` means the key is absent
from the update object. -/
structure StateUpdate where
  isFetchingData : Option Bool
  dataError : Option (Option ErrorInfo)
  payload : Option Nat
deriving DecidableEq, Repr

/-- The merged component state (`data` is `payload`, absent at creation). -/
structure CState where
  isFetchingData : Bool
  dataError : Option ErrorInfo
  payload : Option Nat
deriving DecidableEq, Repr

/-- One `$.ajax` request handle, as kept in `this._xhrRequests`; it remembers
the `url` captured by the `onError` closure of `_fetchDataFromServer`. -/
structure Request where
  id : Nat
  url : Option String
deriving DecidableEq, Repr

/-- One live `setInterval` timer: the callback closes over the `url` computed by
`_startPolling` at registration time, and fires every `interval` ms. -/
structure Timer where
  id : Nat
  url : Option String
  interval : Nat
deriving DecidableEq, Repr

/-- The mixin instance together with its observable environment: the component
fields (`props`, `state`, `_xhrRequests`, `_pollInterval`,
`_ignoreXhrRequestCallbacks`, the optional `getDataUrl` context method) and the
logs of its external effects (GETs issued, aborts, live timers, `setState`
notifications, `options.onError` hook invocations). -/
structure Component where
  props : Props
  getDataUrlFn : Option (Props → Option String)
  state : CState
  xhrRequests : List Request
  pollIntervalId : Option Nat
  ignoreXhrRequestCallbacks : Bool
  activeTimers : List Timer
  nextTimerId : Nat
  nextReqId : Nat
  getsIssued : List (Option String)
  aborts : List Nat
  updates : List StateUpdate
  onErrorCalls : List (Nat × String × String)

namespace Component

/-- `this.setState(u)`: merge the partial update into the state and log the
notification. -/
def setState (c : Component) (u : StateUpdate) : Component :=
  { c with
    state := { isFetchingData := u.isFetchingData.getD c.state.isFetchingData
               dataError := u.dataError.getD c.state.dataError
               payload := match u.payload with
                          | some d => some d
                          | none => c.state.payload }
    updates := c.updates ++ [u] }

/-- The update emitted at the top of `_fetchDataFromServer`:
`{isFetchingData: true, dataError: null}`. -/
def fetchStartUpdate : StateUpdate :=
  { isFetchingData := some true, dataError := some none, payload := none }

/-- `receiveDataFromServer(data)`: the success callback;
`setState({isFetchingData: false, data: data})`, with no teardown guard. -/
def receiveDataFromServer (c : Component) (d : Nat) : Component :=
  c.setState { isFetchingData := some false, dataError := none, payload := some d }

/-- `_getDataUrl(props)`: use the custom `getDataUrl` context method when it is
a function, else the plain `dataUrl` prop. -/
def resolveDataUrl (c : Component) (props : Props) : Option String :=
  match c.getDataUrlFn with
  | some f => f props
  | none => props.dataUrl

/-- `_fetchDataFromServer(url, onSuccess)`: emit the fetch-start update, issue
the GET, push the fresh request handle on `_xhrRequests`. -/
def fetchDataFromServer (c : Component) (url : Option String) : Component :=
  let c1 := c.setState fetchStartUpdate
  { c1 with
    nextReqId := c1.nextReqId + 1
    getsIssued := c1.getsIssued ++ [url]
    xhrRequests := c1.xhrRequests ++ [{ id := c1.nextReqId, url := url }] }

/-- `_clearDataRequests()`: pop and `abort()` every pending request. -/
def clearDataRequests (c : Component) : Component :=
  { c with
    xhrRequests := []
    aborts := c.aborts ++ (c.xhrRequests.reverse.map Request.id) }

/-- `_startPolling(props)`: resolve the url once, register a recurring timer
whose callback closes over that url, store the timer id in `_pollInterval`. -/
def startPolling (c : Component) (props : Props) : Component :=
  let url := c.resolveDataUrl props
  { c with
    nextTimerId := c.nextTimerId + 1
    activeTimers := c.activeTimers ++
      [{ id := c.nextTimerId, url := url, interval := props.pollInterval }]
    pollIntervalId := some c.nextTimerId }

/-- `_clearPolling()`: `clearInterval(this._pollInterval)` (a no-op when the id
is `null`), then `this._pollInterval = null`. -/
def clearPolling (c : Component) : Component :=
  { c with
    activeTimers := match c.pollIntervalId with
      | none => c.activeTimers
      | some i => c.activeTimers.filter (fun t => t.id != i)
    pollIntervalId := none }

/-- `_shouldWePoll(props)`: `props.pollInterval > 0`. -/
def shouldWePoll (props : Props) : Bool :=
  props.pollInterval > 0

/-- `_resetData(props)`: resolve the url, abort pending requests, and fetch
when the url is truthy. -/
def resetData (c : Component) (props : Props) : Component :=
  let dataUrl := c.resolveDataUrl props
  let c1 := c.clearDataRequests
  match dataUrl with
  | some u => c1.fetchDataFromServer (some u)
  | none => c1

/-- `componentWillMount()`: initialize `_xhrRequests`, `_resetData(this.props)`,
and start polling when `_shouldWePoll(this.props)`. -/
def componentWillMount (c : Component) : Component :=
  let c1 := { c with xhrRequests := [] }
  let c2 := c1.resetData c1.props
  if shouldWePoll c2.props then c2.startPolling c2.props else c2

/-- `componentWillReceiveProps(nextProps)`: compare the raw `dataUrl` and
`pollInterval` props; on any change clear polling, re-fetch when `dataUrl`
changed, restart polling when the next props warrant it.  React then installs
`nextProps` as `this.props`. -/
def componentWillReceiveProps (c : Component) (next : Props) : Component :=
  let dataUrlChanged := c.props.dataUrl ≠ next.dataUrl
  let pollIntervalChanged := c.props.pollInterval ≠ next.pollInterval
  let c1 :=
    if dataUrlChanged ∨ pollIntervalChanged then
      let a := c.clearPolling
      let b := if dataUrlChanged then a.resetData next else a
      if shouldWePoll next then b.startPolling next else b
    else c
  { c1 with props := next }

/-- `componentWillUnmount()`: set `_ignoreXhrRequestCallbacks`, abort pending
requests, clear polling. -/
def componentWillUnmount (c : Component) : Component :=
  let c1 := { c with ignoreXhrRequestCallbacks := true }
  c1.clearDataRequests.clearPolling

/-- `refreshData()`: `_resetData(this.props)`. -/
def refreshData (c : Component) : Component :=
  c.resetData c.props

/-- `stopFetching()`: `_clearDataRequests()`. -/
def stopFetching (c : Component) : Component :=
  c.clearDataRequests

/-- `stopPolling()`: `_clearPolling()`. -/
def stopPolling (c : Component) : Component :=
  c.clearPolling

/-- `resumePolling()`: `_clearPolling()` then `_startPolling(this.props)`. -/
def resumePolling (c : Component) : Component :=
  c.clearPolling.startPolling c.props

/-- Transport delivery of a request's `success` then `complete` callbacks:
`success` is `receiveDataFromServer` (unguarded), `complete` removes the
request from `_xhrRequests` (`_.without`). -/
def deliverSuccess (c : Component) (req : Request) (d : Nat) : Component :=
  let c1 := c.receiveDataFromServer d
  { c1 with xhrRequests := c1.xhrRequests.filter (fun r => r.id != req.id) }

/-- Transport delivery of a request's `error` then `complete` callbacks: the
`onError` closure of `_fetchDataFromServer` returns early when
`_ignoreXhrRequestCallbacks` is set; otherwise it emits the error update (with
the closure's captured url) and invokes `options.onError` with the original
arguments; `complete` (unguarded) removes the request from `_xhrRequests`. -/
def deliverError (c : Component) (req : Request) (statusCode : Nat)
    (statusText : String) (err : String) : Component :=
  let c1 :=
    if c.ignoreXhrRequestCallbacks then c
    else
      let cS := c.setState
        { isFetchingData := some false
          dataError := some (some
            { url := req.url, statusCode := statusCode
              statusText := statusText, message := err })
          payload := none }
      { cS with onErrorCalls := cS.onErrorCalls ++ [(statusCode, statusText, err)] }
  { c1 with xhrRequests := c1.xhrRequests.filter (fun r => r.id != req.id) }

/-- One poll interval elapses: every live `setInterval` timer fires its callback
`function() { this._fetchDataFromServer(url, this.receiveDataFromServer); }`
once. -/
def elapse (c : Component) : Component :=
  c.activeTimers.foldl (fun acc t => acc.fetchDataFromServer t.url) c

end Component

/-- A freshly mounted component: `getInitialState`, the construction-time
context (`props`, optional `getDataUrl` method), then `componentWillMount`. -/
def mkComponent (props : Props) (f : Option (Props → Option String)) : Component :=
  Component.componentWillMount
    { props := props
      getDataUrlFn := f
      state := { isFetchingData := false, dataError := none, payload := none }
      xhrRequests := []
      pollIntervalId := none
      ignoreXhrRequestCallbacks := false
      activeTimers := []
      nextTimerId := 0
      nextReqId := 0
      getsIssued := []
      aborts := []
      updates := []
      onErrorCalls := [] }

/-- The operations the host and the environment can perform on a mounted
component: prop updates, the public mixin methods, unmount, transport callback
deliveries, and the elapse of a poll interval. -/
inductive Op where
  | update (next : Props)
  | refresh
  | stopFetching
  | stopPolling
  | resumePolling
  | unmount
  | success (req : Request) (d : Nat)
  | error (req : Request) (statusCode : Nat) (statusText : String) (err : String)
  | elapse
deriving Repr

/-- Interpret one operation. -/
def applyOp (c : Component) : Op → Component
  | Op.update next => c.componentWillReceiveProps next
  | Op.refresh => c.refreshData
  | Op.stopFetching => c.stopFetching
  | Op.stopPolling => c.stopPolling
  | Op.resumePolling => c.resumePolling
  | Op.unmount => c.componentWillUnmount
  | Op.success req d => c.deliverSuccess req d
  | Op.error req sc st e => c.deliverError req sc st e
  | Op.elapse => c.elapse

/-- Run a sequence of operations. -/
def run (c : Component) (ops : List Op) : Component :=
  ops.foldl applyOp c

/-- Iterate a component transformer. -/
def iterOp (f : Component → Component) : Nat → Component → Component
  | 0, c => c
  | n + 1, c => iterOp f n (f c)

namespace Component

/-- The GETs `_resetData` issues for a resolved url: one when truthy, none
otherwise. -/
def fetchOf (o : Option String) : List (Option String) :=
  match o with
  | some u => [some u]
  | none => []

/-- The fetch-start notifications `_resetData` emits for a resolved url. -/
def fetchStartsOf (o : Option String) : List StateUpdate :=
  match o with
  | some _ => [fetchStartUpdate]
  | none => []

end Component

open Component

/-- Timer ownership invariant: the environment holds no live timer when
`this._pollInterval` is `null`, and exactly the one registered under that id
otherwise — i.e. at most one recurring timer is ever active. -/
def TimerInv (c : Component) : Prop :=
  (c.pollIntervalId = none → c.activeTimers = []) ∧
  (∀ i, c.pollIntervalId = some i → ∃ t, c.activeTimers = [t] ∧ t.id = i)

/-- Number of fetch-start notifications (`{isFetchingData: true, dataError: null}`)
in a `setState` log. -/
def fetchStartCount (l : List StateUpdate) : Nat :=
  l.countP (fun u => decide (u = fetchStartUpdate))

/-- The reachable-state invariant: timer ownership, plus one fetch-start
notification per GET ever issued. -/
def ReachInv (c : Component) : Prop :=
  TimerInv c ∧ fetchStartCount c.updates = c.getsIssued.length

def tornComponent : Component :=
  (mkComponent { dataUrl := some "a", pollInterval := 0, extra := 0 } none).componentWillUnmount

def afterTeardown (p : Props) (f : Option (Props → Option String))
    (ops1 ops2 : List Op) : Component :=
  run (applyOp (run (mkComponent p f) ops1) Op.unmount) ops2

def extraResolver : Props → Option String :=
  fun q => some (if q.extra = 0 then "a" else "b")

def resolverComponent : Component :=
  mkComponent { dataUrl := some "u", pollInterval := 0, extra := 0 } (some extraResolver)

def resolverNext : Props := { dataUrl := some "u", pollInterval := 0, extra := 1 }

def pollProps : Props := { dataUrl := some "u", pollInterval := 5, extra := 0 }

def c6NoUrl : Component :=
  ((mkComponent { dataUrl := some "a", pollInterval := 0, extra := 0 } none).deliverError
      { id := 0, url := some "a" } 500 "error" "boom").componentWillReceiveProps
    { dataUrl := none, pollInterval := 0, extra := 0 }

def c9c1 : Component :=
  (mkComponent { dataUrl := some "u", pollInterval := 5, extra := 0 }
      (some extraResolver)).componentWillReceiveProps
    { dataUrl := some "u", pollInterval := 5, extra := 1 }

def zeroProps : Props := { dataUrl := some "a", pollInterval := 0, extra := 0 }

namespace Component

/-! ### Field-effect lemmas for the leaf operations -/

@[simp] theorem setState_updates (c : Component) (u : StateUpdate) :
    (c.setState u).updates = c.updates ++ [u] := rfl

@[simp] theorem setState_getsIssued (c : Component) (u : StateUpdate) :
    (c.setState u).getsIssued = c.getsIssued := rfl

@[simp] theorem setState_aborts (c : Component) (u : StateUpdate) :
    (c.setState u).aborts = c.aborts := rfl

@[simp] theorem setState_activeTimers (c : Component) (u : StateUpdate) :
    (c.setState u).activeTimers = c.activeTimers := rfl

@[simp] theorem setState_pollIntervalId (c : Component) (u : StateUpdate) :
    (c.setState u).pollIntervalId = c.pollIntervalId := rfl

@[simp] theorem setState_nextTimerId (c : Component) (u : StateUpdate) :
    (c.setState u).nextTimerId = c.nextTimerId := rfl

@[simp] theorem setState_props (c : Component) (u : StateUpdate) :
    (c.setState u).props = c.props := rfl

@[simp] theorem setState_getDataUrlFn (c : Component) (u : StateUpdate) :
    (c.setState u).getDataUrlFn = c.getDataUrlFn := rfl

@[simp] theorem setState_ignore (c : Component) (u : StateUpdate) :
    (c.setState u).ignoreXhrRequestCallbacks = c.ignoreXhrRequestCallbacks := rfl

@[simp] theorem setState_onErrorCalls (c : Component) (u : StateUpdate) :
    (c.setState u).onErrorCalls = c.onErrorCalls := rfl

@[simp] theorem fetchDataFromServer_getsIssued (c : Component) (url : Option String) :
    (c.fetchDataFromServer url).getsIssued = c.getsIssued ++ [url] := rfl

@[simp] theorem fetchDataFromServer_updates (c : Component) (url : Option String) :
    (c.fetchDataFromServer url).updates = c.updates ++ [fetchStartUpdate] := rfl

@[simp] theorem fetchDataFromServer_aborts (c : Component) (url : Option String) :
    (c.fetchDataFromServer url).aborts = c.aborts := rfl

@[simp] theorem fetchDataFromServer_activeTimers (c : Component) (url : Option String) :
    (c.fetchDataFromServer url).activeTimers = c.activeTimers := rfl

@[simp] theorem fetchDataFromServer_pollIntervalId (c : Component) (url : Option String) :
    (c.fetchDataFromServer url).pollIntervalId = c.pollIntervalId := rfl

@[simp] theorem fetchDataFromServer_nextTimerId (c : Component) (url : Option String) :
    (c.fetchDataFromServer url).nextTimerId = c.nextTimerId := rfl

@[simp] theorem fetchDataFromServer_props (c : Component) (url : Option String) :
    (c.fetchDataFromServer url).props = c.props := rfl

@[simp] theorem fetchDataFromServer_getDataUrlFn (c : Component) (url : Option String) :
    (c.fetchDataFromServer url).getDataUrlFn = c.getDataUrlFn := rfl

@[simp] theorem fetchDataFromServer_ignore (c : Component) (url : Option String) :
    (c.fetchDataFromServer url).ignoreXhrRequestCallbacks = c.ignoreXhrRequestCallbacks := rfl

@[simp] theorem fetchDataFromServer_onErrorCalls (c : Component) (url : Option String) :
    (c.fetchDataFromServer url).onErrorCalls = c.onErrorCalls := rfl

@[simp] theorem fetchDataFromServer_isFetchingData (c : Component) (url : Option String) :
    (c.fetchDataFromServer url).state.isFetchingData = true := rfl

@[simp] theorem fetchDataFromServer_dataError (c : Component) (url : Option String) :
    (c.fetchDataFromServer url).state.dataError = none := rfl

@[simp] theorem clearDataRequests_getsIssued (c : Component) :
    c.clearDataRequests.getsIssued = c.getsIssued := rfl

@[simp] theorem clearDataRequests_updates (c : Component) :
    c.clearDataRequests.updates = c.updates := rfl

@[simp] theorem clearDataRequests_aborts (c : Component) :
    c.clearDataRequests.aborts = c.aborts ++ c.xhrRequests.reverse.map Request.id := rfl

@[simp] theorem clearDataRequests_xhrRequests (c : Component) :
    c.clearDataRequests.xhrRequests = [] := rfl

@[simp] theorem clearDataRequests_activeTimers (c : Component) :
    c.clearDataRequests.activeTimers = c.activeTimers := rfl

@[simp] theorem clearDataRequests_pollIntervalId (c : Component) :
    c.clearDataRequests.pollIntervalId = c.pollIntervalId := rfl

@[simp] theorem clearDataRequests_nextTimerId (c : Component) :
    c.clearDataRequests.nextTimerId = c.nextTimerId := rfl

@[simp] theorem clearDataRequests_props (c : Component) :
    c.clearDataRequests.props = c.props := rfl

@[simp] theorem clearDataRequests_getDataUrlFn (c : Component) :
    c.clearDataRequests.getDataUrlFn = c.getDataUrlFn := rfl

@[simp] theorem clearDataRequests_ignore (c : Component) :
    c.clearDataRequests.ignoreXhrRequestCallbacks = c.ignoreXhrRequestCallbacks := rfl

@[simp] theorem clearDataRequests_state (c : Component) :
    c.clearDataRequests.state = c.state := rfl

@[simp] theorem clearDataRequests_onErrorCalls (c : Component) :
    c.clearDataRequests.onErrorCalls = c.onErrorCalls := rfl

@[simp] theorem startPolling_activeTimers (c : Component) (p : Props) :
    (c.startPolling p).activeTimers =
      c.activeTimers ++
        [{ id := c.nextTimerId, url := c.resolveDataUrl p, interval := p.pollInterval }] := rfl

@[simp] theorem startPolling_pollIntervalId (c : Component) (p : Props) :
    (c.startPolling p).pollIntervalId = some c.nextTimerId := rfl

@[simp] theorem startPolling_nextTimerId (c : Component) (p : Props) :
    (c.startPolling p).nextTimerId = c.nextTimerId + 1 := rfl

@[simp] theorem startPolling_getsIssued (c : Component) (p : Props) :
    (c.startPolling p).getsIssued = c.getsIssued := rfl

@[simp] theorem startPolling_updates (c : Component) (p : Props) :
    (c.startPolling p).updates = c.updates := rfl

@[simp] theorem startPolling_aborts (c : Component) (p : Props) :
    (c.startPolling p).aborts = c.aborts := rfl

@[simp] theorem startPolling_props (c : Component) (p : Props) :
    (c.startPolling p).props = c.props := rfl

@[simp] theorem startPolling_getDataUrlFn (c : Component) (p : Props) :
    (c.startPolling p).getDataUrlFn = c.getDataUrlFn := rfl

@[simp] theorem startPolling_ignore (c : Component) (p : Props) :
    (c.startPolling p).ignoreXhrRequestCallbacks = c.ignoreXhrRequestCallbacks := rfl

@[simp] theorem startPolling_state (c : Component) (p : Props) :
    (c.startPolling p).state = c.state := rfl

@[simp] theorem startPolling_xhrRequests (c : Component) (p : Props) :
    (c.startPolling p).xhrRequests = c.xhrRequests := rfl

@[simp] theorem startPolling_onErrorCalls (c : Component) (p : Props) :
    (c.startPolling p).onErrorCalls = c.onErrorCalls := rfl

@[simp] theorem clearPolling_pollIntervalId (c : Component) :
    c.clearPolling.pollIntervalId = none := rfl

@[simp] theorem clearPolling_getsIssued (c : Component) :
    c.clearPolling.getsIssued = c.getsIssued := rfl

@[simp] theorem clearPolling_updates (c : Component) :
    c.clearPolling.updates = c.updates := rfl

@[simp] theorem clearPolling_aborts (c : Component) :
    c.clearPolling.aborts = c.aborts := rfl

@[simp] theorem clearPolling_nextTimerId (c : Component) :
    c.clearPolling.nextTimerId = c.nextTimerId := rfl

@[simp] theorem clearPolling_props (c : Component) :
    c.clearPolling.props = c.props := rfl

@[simp] theorem clearPolling_getDataUrlFn (c : Component) :
    c.clearPolling.getDataUrlFn = c.getDataUrlFn := rfl

@[simp] theorem clearPolling_ignore (c : Component) :
    c.clearPolling.ignoreXhrRequestCallbacks = c.ignoreXhrRequestCallbacks := rfl

@[simp] theorem clearPolling_state (c : Component) :
    c.clearPolling.state = c.state := rfl

@[simp] theorem clearPolling_xhrRequests (c : Component) :
    c.clearPolling.xhrRequests = c.xhrRequests := rfl

@[simp] theorem clearPolling_onErrorCalls (c : Component) :
    c.clearPolling.onErrorCalls = c.onErrorCalls := rfl

end Component

namespace Component

theorem resolveDataUrl_eq {c c' : Component} (h : c'.getDataUrlFn = c.getDataUrlFn)
    (p : Props) : c'.resolveDataUrl p = c.resolveDataUrl p := by
  simp [resolveDataUrl, h]

theorem resetData_of_some {c : Component} {p : Props} {u : String}
    (h : c.resolveDataUrl p = some u) :
    c.resetData p = c.clearDataRequests.fetchDataFromServer (some u) := by
  simp [resetData, h]

theorem resetData_of_none {c : Component} {p : Props}
    (h : c.resolveDataUrl p = none) :
    c.resetData p = c.clearDataRequests := by
  simp [resetData, h]

@[simp] theorem resetData_activeTimers (c : Component) (p : Props) :
    (c.resetData p).activeTimers = c.activeTimers := by
  cases h : c.resolveDataUrl p <;> simp [resetData, h]

@[simp] theorem resetData_pollIntervalId (c : Component) (p : Props) :
    (c.resetData p).pollIntervalId = c.pollIntervalId := by
  cases h : c.resolveDataUrl p <;> simp [resetData, h]

@[simp] theorem resetData_nextTimerId (c : Component) (p : Props) :
    (c.resetData p).nextTimerId = c.nextTimerId := by
  cases h : c.resolveDataUrl p <;> simp [resetData, h]

@[simp] theorem resetData_props (c : Component) (p : Props) :
    (c.resetData p).props = c.props := by
  cases h : c.resolveDataUrl p <;> simp [resetData, h]

@[simp] theorem resetData_getDataUrlFn (c : Component) (p : Props) :
    (c.resetData p).getDataUrlFn = c.getDataUrlFn := by
  cases h : c.resolveDataUrl p <;> simp [resetData, h]

@[simp] theorem resetData_ignore (c : Component) (p : Props) :
    (c.resetData p).ignoreXhrRequestCallbacks = c.ignoreXhrRequestCallbacks := by
  cases h : c.resolveDataUrl p <;> simp [resetData, h]

@[simp] theorem resetData_onErrorCalls (c : Component) (p : Props) :
    (c.resetData p).onErrorCalls = c.onErrorCalls := by
  cases h : c.resolveDataUrl p <;> simp [resetData, h]

theorem resetData_getsIssued (c : Component) (p : Props) :
    (c.resetData p).getsIssued = c.getsIssued ++ fetchOf (c.resolveDataUrl p) := by
  cases h : c.resolveDataUrl p <;> simp [resetData, fetchOf, h]

theorem resetData_updates (c : Component) (p : Props) :
    (c.resetData p).updates = c.updates ++ fetchStartsOf (c.resolveDataUrl p) := by
  cases h : c.resolveDataUrl p <;> simp [resetData, fetchStartsOf, h]

theorem resetData_aborts (c : Component) (p : Props) :
    (c.resetData p).aborts = c.aborts ++ c.xhrRequests.reverse.map Request.id := by
  cases h : c.resolveDataUrl p <;> simp [resetData, h]

@[simp] theorem deliverSuccess_updates (c : Component) (req : Request) (d : Nat) :
    (c.deliverSuccess req d).updates =
      c.updates ++ [{ isFetchingData := some false, dataError := none, payload := some d }] := rfl

@[simp] theorem deliverSuccess_getsIssued (c : Component) (req : Request) (d : Nat) :
    (c.deliverSuccess req d).getsIssued = c.getsIssued := rfl

@[simp] theorem deliverSuccess_aborts (c : Component) (req : Request) (d : Nat) :
    (c.deliverSuccess req d).aborts = c.aborts := rfl

@[simp] theorem deliverSuccess_activeTimers (c : Component) (req : Request) (d : Nat) :
    (c.deliverSuccess req d).activeTimers = c.activeTimers := rfl

@[simp] theorem deliverSuccess_pollIntervalId (c : Component) (req : Request) (d : Nat) :
    (c.deliverSuccess req d).pollIntervalId = c.pollIntervalId := rfl

@[simp] theorem deliverSuccess_nextTimerId (c : Component) (req : Request) (d : Nat) :
    (c.deliverSuccess req d).nextTimerId = c.nextTimerId := rfl

@[simp] theorem deliverSuccess_props (c : Component) (req : Request) (d : Nat) :
    (c.deliverSuccess req d).props = c.props := rfl

@[simp] theorem deliverSuccess_getDataUrlFn (c : Component) (req : Request) (d : Nat) :
    (c.deliverSuccess req d).getDataUrlFn = c.getDataUrlFn := rfl

@[simp] theorem deliverSuccess_ignore (c : Component) (req : Request) (d : Nat) :
    (c.deliverSuccess req d).ignoreXhrRequestCallbacks = c.ignoreXhrRequestCallbacks := rfl

@[simp] theorem deliverSuccess_onErrorCalls (c : Component) (req : Request) (d : Nat) :
    (c.deliverSuccess req d).onErrorCalls = c.onErrorCalls := rfl

@[simp] theorem setState_xhrRequests (c : Component) (u : StateUpdate) :
    (c.setState u).xhrRequests = c.xhrRequests := rfl

theorem deliverError_of_ignore {c : Component} (h : c.ignoreXhrRequestCallbacks = true)
    (req : Request) (sc : Nat) (st : String) (e : String) :
    c.deliverError req sc st e =
      { c with xhrRequests := c.xhrRequests.filter (fun r => r.id != req.id) } := by
  simp [deliverError, h]

theorem deliverError_of_live {c : Component} (h : c.ignoreXhrRequestCallbacks = false)
    (req : Request) (sc : Nat) (st : String) (e : String) :
    c.deliverError req sc st e =
      { c.setState
          { isFetchingData := some false
            dataError := some (some
              { url := req.url, statusCode := sc, statusText := st, message := e })
            payload := none } with
        onErrorCalls := c.onErrorCalls ++ [(sc, st, e)]
        xhrRequests := c.xhrRequests.filter (fun r => r.id != req.id) } := by
  simp [deliverError, h]

@[simp] theorem deliverError_activeTimers (c : Component) (req : Request)
    (sc : Nat) (st : String) (e : String) :
    (c.deliverError req sc st e).activeTimers = c.activeTimers := by
  cases h : c.ignoreXhrRequestCallbacks <;> simp [deliverError, h]

@[simp] theorem deliverError_pollIntervalId (c : Component) (req : Request)
    (sc : Nat) (st : String) (e : String) :
    (c.deliverError req sc st e).pollIntervalId = c.pollIntervalId := by
  cases h : c.ignoreXhrRequestCallbacks <;> simp [deliverError, h]

@[simp] theorem deliverError_nextTimerId (c : Component) (req : Request)
    (sc : Nat) (st : String) (e : String) :
    (c.deliverError req sc st e).nextTimerId = c.nextTimerId := by
  cases h : c.ignoreXhrRequestCallbacks <;> simp [deliverError, h]

@[simp] theorem deliverError_getsIssued (c : Component) (req : Request)
    (sc : Nat) (st : String) (e : String) :
    (c.deliverError req sc st e).getsIssued = c.getsIssued := by
  cases h : c.ignoreXhrRequestCallbacks <;> simp [deliverError, h]

@[simp] theorem deliverError_props (c : Component) (req : Request)
    (sc : Nat) (st : String) (e : String) :
    (c.deliverError req sc st e).props = c.props := by
  cases h : c.ignoreXhrRequestCallbacks <;> simp [deliverError, h]

@[simp] theorem deliverError_getDataUrlFn (c : Component) (req : Request)
    (sc : Nat) (st : String) (e : String) :
    (c.deliverError req sc st e).getDataUrlFn = c.getDataUrlFn := by
  cases h : c.ignoreXhrRequestCallbacks <;> simp [deliverError, h]

@[simp] theorem deliverError_ignore (c : Component) (req : Request)
    (sc : Nat) (st : String) (e : String) :
    (c.deliverError req sc st e).ignoreXhrRequestCallbacks = c.ignoreXhrRequestCallbacks := by
  cases h : c.ignoreXhrRequestCallbacks <;> simp [deliverError, h]

end Component

namespace Component

/-! ### The elapse of one poll interval -/

theorem foldFetch_activeTimers (l : List Timer) (c : Component) :
    (l.foldl (fun acc t => acc.fetchDataFromServer t.url) c).activeTimers =
      c.activeTimers := by
  induction l generalizing c with
  | nil => rfl
  | cons t l ih => simp [List.foldl_cons, ih]

theorem foldFetch_pollIntervalId (l : List Timer) (c : Component) :
    (l.foldl (fun acc t => acc.fetchDataFromServer t.url) c).pollIntervalId =
      c.pollIntervalId := by
  induction l generalizing c with
  | nil => rfl
  | cons t l ih => simp [List.foldl_cons, ih]

theorem foldFetch_nextTimerId (l : List Timer) (c : Component) :
    (l.foldl (fun acc t => acc.fetchDataFromServer t.url) c).nextTimerId =
      c.nextTimerId := by
  induction l generalizing c with
  | nil => rfl
  | cons t l ih => simp [List.foldl_cons, ih]

theorem foldFetch_props (l : List Timer) (c : Component) :
    (l.foldl (fun acc t => acc.fetchDataFromServer t.url) c).props = c.props := by
  induction l generalizing c with
  | nil => rfl
  | cons t l ih => simp [List.foldl_cons, ih]

theorem foldFetch_getDataUrlFn (l : List Timer) (c : Component) :
    (l.foldl (fun acc t => acc.fetchDataFromServer t.url) c).getDataUrlFn =
      c.getDataUrlFn := by
  induction l generalizing c with
  | nil => rfl
  | cons t l ih => simp [List.foldl_cons, ih]

theorem foldFetch_ignore (l : List Timer) (c : Component) :
    (l.foldl (fun acc t => acc.fetchDataFromServer t.url) c).ignoreXhrRequestCallbacks =
      c.ignoreXhrRequestCallbacks := by
  induction l generalizing c with
  | nil => rfl
  | cons t l ih => simp [List.foldl_cons, ih]

theorem foldFetch_aborts (l : List Timer) (c : Component) :
    (l.foldl (fun acc t => acc.fetchDataFromServer t.url) c).aborts = c.aborts := by
  induction l generalizing c with
  | nil => rfl
  | cons t l ih => simp [List.foldl_cons, ih]

theorem foldFetch_onErrorCalls (l : List Timer) (c : Component) :
    (l.foldl (fun acc t => acc.fetchDataFromServer t.url) c).onErrorCalls =
      c.onErrorCalls := by
  induction l generalizing c with
  | nil => rfl
  | cons t l ih => simp [List.foldl_cons, ih]

theorem foldFetch_getsIssued (l : List Timer) (c : Component) :
    (l.foldl (fun acc t => acc.fetchDataFromServer t.url) c).getsIssued =
      c.getsIssued ++ l.map Timer.url := by
  induction l generalizing c with
  | nil => simp
  | cons t l ih => simp [List.foldl_cons, ih]

theorem foldFetch_updates (l : List Timer) (c : Component) :
    (l.foldl (fun acc t => acc.fetchDataFromServer t.url) c).updates =
      c.updates ++ l.map (fun _ => fetchStartUpdate) := by
  induction l generalizing c with
  | nil => simp
  | cons t l ih => simp [List.foldl_cons, ih]

@[simp] theorem elapse_activeTimers (c : Component) :
    c.elapse.activeTimers = c.activeTimers :=
  foldFetch_activeTimers c.activeTimers c

@[simp] theorem elapse_pollIntervalId (c : Component) :
    c.elapse.pollIntervalId = c.pollIntervalId :=
  foldFetch_pollIntervalId c.activeTimers c

@[simp] theorem elapse_nextTimerId (c : Component) :
    c.elapse.nextTimerId = c.nextTimerId :=
  foldFetch_nextTimerId c.activeTimers c

@[simp] theorem elapse_props (c : Component) :
    c.elapse.props = c.props :=
  foldFetch_props c.activeTimers c

@[simp] theorem elapse_getDataUrlFn (c : Component) :
    c.elapse.getDataUrlFn = c.getDataUrlFn :=
  foldFetch_getDataUrlFn c.activeTimers c

@[simp] theorem elapse_ignore (c : Component) :
    c.elapse.ignoreXhrRequestCallbacks = c.ignoreXhrRequestCallbacks :=
  foldFetch_ignore c.activeTimers c

@[simp] theorem elapse_aborts (c : Component) :
    c.elapse.aborts = c.aborts :=
  foldFetch_aborts c.activeTimers c

@[simp] theorem elapse_onErrorCalls (c : Component) :
    c.elapse.onErrorCalls = c.onErrorCalls :=
  foldFetch_onErrorCalls c.activeTimers c

theorem elapse_getsIssued (c : Component) :
    c.elapse.getsIssued = c.getsIssued ++ c.activeTimers.map Timer.url :=
  foldFetch_getsIssued c.activeTimers c

theorem elapse_updates (c : Component) :
    c.elapse.updates = c.updates ++ c.activeTimers.map (fun _ => fetchStartUpdate) :=
  foldFetch_updates c.activeTimers c

end Component

theorem fetchStartCount_append (l l' : List StateUpdate) :
    fetchStartCount (l ++ l') = fetchStartCount l + fetchStartCount l' := by
  simp [fetchStartCount, List.countP_append]

theorem fetchStartCount_singleton (u : StateUpdate) :
    fetchStartCount [u] = if u = fetchStartUpdate then 1 else 0 := by
  simp [fetchStartCount, List.countP_cons, List.countP_nil]

theorem fetchStartCount_map_const (l : List Timer) :
    fetchStartCount (l.map (fun _ => fetchStartUpdate)) = l.length := by
  induction l with
  | nil => rfl
  | cons t l ih =>
      simp only [List.map_cons]
      show fetchStartCount ([fetchStartUpdate] ++ l.map (fun _ => fetchStartUpdate)) = _
      rw [fetchStartCount_append, ih, fetchStartCount_singleton]
      simp [Nat.add_comm]

theorem fetchStartCount_startsOf (o : Option String) :
    fetchStartCount (fetchStartsOf o) = (fetchOf o).length := by
  cases o <;> simp [fetchStartsOf, fetchOf, fetchStartCount]

theorem timerInv_of_eq {c c' : Component} (h1 : c'.pollIntervalId = c.pollIntervalId)
    (h2 : c'.activeTimers = c.activeTimers) (h : TimerInv c) : TimerInv c' := by
  refine ⟨fun hn => ?_, fun i hi => ?_⟩
  · rw [h2]; exact h.1 (h1 ▸ hn)
  · rw [h2]; exact h.2 i (h1 ▸ hi)

theorem clearPolling_activeTimers_of {c : Component} (h : TimerInv c) :
    c.clearPolling.activeTimers = [] := by
  cases hp : c.pollIntervalId with
  | none => simp [Component.clearPolling, hp, h.1 hp]
  | some i =>
      obtain ⟨t, ht, hid⟩ := h.2 i hp
      simp [Component.clearPolling, hp, ht, hid]

theorem timerInv_clearPolling {c : Component} (h : TimerInv c) :
    TimerInv c.clearPolling := by
  refine ⟨fun _ => clearPolling_activeTimers_of h, fun i hi => ?_⟩
  simp at hi

theorem timerInv_startPolling {c : Component} (h : c.activeTimers = []) (p : Props) :
    TimerInv (c.startPolling p) := by
  refine ⟨fun hn => ?_, fun i hi => ?_⟩
  · simp at hn
  · simp at hi
    exact ⟨{ id := c.nextTimerId, url := c.resolveDataUrl p, interval := p.pollInterval },
      by simp [h], by simp [hi]⟩

namespace Component

/-! ### Case analysis of `componentWillReceiveProps` and `componentWillMount` -/

theorem cwrp_eq_unchanged {c : Component} {next : Props}
    (h1 : c.props.dataUrl = next.dataUrl) (h2 : c.props.pollInterval = next.pollInterval) :
    c.componentWillReceiveProps next = { c with props := next } := by
  simp [componentWillReceiveProps, h1, h2]

theorem cwrp_eq_pollChanged_start {c : Component} {next : Props}
    (h1 : c.props.dataUrl = next.dataUrl) (h2 : c.props.pollInterval ≠ next.pollInterval)
    (h3 : shouldWePoll next = true) :
    c.componentWillReceiveProps next =
      { c.clearPolling.startPolling next with props := next } := by
  simp [componentWillReceiveProps, h1, h2, h3]

theorem cwrp_eq_pollChanged_nostart {c : Component} {next : Props}
    (h1 : c.props.dataUrl = next.dataUrl) (h2 : c.props.pollInterval ≠ next.pollInterval)
    (h3 : shouldWePoll next = false) :
    c.componentWillReceiveProps next = { c.clearPolling with props := next } := by
  simp [componentWillReceiveProps, h1, h2, h3]

theorem cwrp_eq_urlChanged_start {c : Component} {next : Props}
    (h1 : c.props.dataUrl ≠ next.dataUrl) (h3 : shouldWePoll next = true) :
    c.componentWillReceiveProps next =
      { (c.clearPolling.resetData next).startPolling next with props := next } := by
  simp [componentWillReceiveProps, h1, h3]

theorem cwrp_eq_urlChanged_nostart {c : Component} {next : Props}
    (h1 : c.props.dataUrl ≠ next.dataUrl) (h3 : shouldWePoll next = false) :
    c.componentWillReceiveProps next =
      { c.clearPolling.resetData next with props := next } := by
  simp [componentWillReceiveProps, h1, h3]

theorem mount_eq_poll {c : Component} (hs : shouldWePoll c.props = true) :
    c.componentWillMount =
      (({ c with xhrRequests := [] }).resetData c.props).startPolling c.props := by
  simp [componentWillMount, resetData_props, hs]

theorem mount_eq_nopoll {c : Component} (hs : shouldWePoll c.props = false) :
    c.componentWillMount = ({ c with xhrRequests := [] }).resetData c.props := by
  simp [componentWillMount, resetData_props, hs]

theorem cwrp_ignore (c : Component) (next : Props) :
    (c.componentWillReceiveProps next).ignoreXhrRequestCallbacks =
      c.ignoreXhrRequestCallbacks := by
  by_cases h1 : c.props.dataUrl = next.dataUrl
  · by_cases h2 : c.props.pollInterval = next.pollInterval
    · rw [cwrp_eq_unchanged h1 h2]
    · cases h3 : shouldWePoll next
      · rw [cwrp_eq_pollChanged_nostart h1 h2 h3]; simp
      · rw [cwrp_eq_pollChanged_start h1 h2 h3]; simp
  · cases h3 : shouldWePoll next
    · rw [cwrp_eq_urlChanged_nostart h1 h3]; simp
    · rw [cwrp_eq_urlChanged_start h1 h3]; simp

theorem cwrp_getDataUrlFn (c : Component) (next : Props) :
    (c.componentWillReceiveProps next).getDataUrlFn = c.getDataUrlFn := by
  by_cases h1 : c.props.dataUrl = next.dataUrl
  · by_cases h2 : c.props.pollInterval = next.pollInterval
    · rw [cwrp_eq_unchanged h1 h2]
    · cases h3 : shouldWePoll next
      · rw [cwrp_eq_pollChanged_nostart h1 h2 h3]; simp
      · rw [cwrp_eq_pollChanged_start h1 h2 h3]; simp
  · cases h3 : shouldWePoll next
    · rw [cwrp_eq_urlChanged_nostart h1 h3]; simp
    · rw [cwrp_eq_urlChanged_start h1 h3]; simp

@[simp] theorem cwrp_props (c : Component) (next : Props) :
    (c.componentWillReceiveProps next).props = next := by
  by_cases h1 : c.props.dataUrl = next.dataUrl
  · by_cases h2 : c.props.pollInterval = next.pollInterval
    · rw [cwrp_eq_unchanged h1 h2]
    · cases h3 : shouldWePoll next
      · rw [cwrp_eq_pollChanged_nostart h1 h2 h3]
      · rw [cwrp_eq_pollChanged_start h1 h2 h3]
  · cases h3 : shouldWePoll next
    · rw [cwrp_eq_urlChanged_nostart h1 h3]
    · rw [cwrp_eq_urlChanged_start h1 h3]

end Component

/-! ### Preservation of the reachable-state invariant -/

theorem reachInv_withProps {c : Component} (h : ReachInv c) (q : Props) :
    ReachInv { c with props := q } :=
  ⟨timerInv_of_eq rfl rfl h.1, h.2⟩

theorem reachInv_withIgnore {c : Component} (h : ReachInv c) :
    ReachInv { c with ignoreXhrRequestCallbacks := true } :=
  ⟨timerInv_of_eq rfl rfl h.1, h.2⟩

theorem reachInv_clearDataRequests {c : Component} (h : ReachInv c) :
    ReachInv c.clearDataRequests :=
  ⟨timerInv_of_eq rfl rfl h.1, h.2⟩

theorem reachInv_clearPolling {c : Component} (h : ReachInv c) :
    ReachInv c.clearPolling :=
  ⟨timerInv_clearPolling h.1, by simpa using h.2⟩

theorem reachInv_startPolling {c : Component} (h : ReachInv c)
    (hT : c.activeTimers = []) (p : Props) : ReachInv (c.startPolling p) :=
  ⟨timerInv_startPolling hT p, by simpa using h.2⟩

theorem reachInv_resetData {c : Component} (h : ReachInv c) (p : Props) :
    ReachInv (c.resetData p) := by
  refine ⟨timerInv_of_eq (resetData_pollIntervalId c p) (resetData_activeTimers c p) h.1, ?_⟩
  rw [resetData_updates, resetData_getsIssued, fetchStartCount_append,
    fetchStartCount_startsOf, List.length_append, h.2]

theorem reachInv_fetchDataFromServer {c : Component} (h : ReachInv c)
    (url : Option String) : ReachInv (c.fetchDataFromServer url) := by
  refine ⟨timerInv_of_eq (by simp) (by simp) h.1, ?_⟩
  rw [fetchDataFromServer_updates, fetchDataFromServer_getsIssued,
    fetchStartCount_append, fetchStartCount_singleton]
  simp [h.2]

theorem reachInv_deliverSuccess {c : Component} (h : ReachInv c)
    (req : Request) (d : Nat) : ReachInv (c.deliverSuccess req d) := by
  refine ⟨timerInv_of_eq (by simp) (by simp) h.1, ?_⟩
  rw [deliverSuccess_updates, fetchStartCount_append, fetchStartCount_singleton]
  have hne : ({ isFetchingData := some false, dataError := none, payload := some d } :
      StateUpdate) ≠ fetchStartUpdate := by
    simp [fetchStartUpdate]
  simp [hne, h.2]

theorem reachInv_deliverError {c : Component} (h : ReachInv c) (req : Request)
    (sc : Nat) (st : String) (e : String) : ReachInv (c.deliverError req sc st e) := by
  refine ⟨timerInv_of_eq (by simp) (by simp) h.1, ?_⟩
  cases hf : c.ignoreXhrRequestCallbacks with
  | false =>
      rw [deliverError_of_live hf]
      show fetchStartCount (c.setState _).updates = c.getsIssued.length
      rw [setState_updates, fetchStartCount_append, fetchStartCount_singleton]
      have hne : ({ isFetchingData := some false
                    dataError := some (some { url := req.url, statusCode := sc
                                              statusText := st, message := e })
                    payload := none } : StateUpdate) ≠ fetchStartUpdate := by
        simp [fetchStartUpdate]
      simp [hne, h.2]
  | true =>
      rw [deliverError_of_ignore hf]
      exact h.2

theorem reachInv_elapse {c : Component} (h : ReachInv c) : ReachInv c.elapse := by
  refine ⟨timerInv_of_eq (by simp) (by simp) h.1, ?_⟩
  rw [elapse_updates, elapse_getsIssued, fetchStartCount_append,
    fetchStartCount_map_const, List.length_append, List.length_map, h.2]

theorem reachInv_cwrp {c : Component} (h : ReachInv c) (next : Props) :
    ReachInv (c.componentWillReceiveProps next) := by
  by_cases h1 : c.props.dataUrl = next.dataUrl
  · by_cases h2 : c.props.pollInterval = next.pollInterval
    · rw [cwrp_eq_unchanged h1 h2]; exact reachInv_withProps h next
    · cases h3 : shouldWePoll next
      · rw [cwrp_eq_pollChanged_nostart h1 h2 h3]
        exact reachInv_withProps (reachInv_clearPolling h) next
      · rw [cwrp_eq_pollChanged_start h1 h2 h3]
        exact reachInv_withProps
          (reachInv_startPolling (reachInv_clearPolling h)
            (clearPolling_activeTimers_of h.1) next) next
  · cases h3 : shouldWePoll next
    · rw [cwrp_eq_urlChanged_nostart h1 h3]
      exact reachInv_withProps (reachInv_resetData (reachInv_clearPolling h) next) next
    · rw [cwrp_eq_urlChanged_start h1 h3]
      refine reachInv_withProps
        (reachInv_startPolling (reachInv_resetData (reachInv_clearPolling h) next) ?_ next) next
      rw [resetData_activeTimers]
      exact clearPolling_activeTimers_of h.1

theorem reachInv_unmount {c : Component} (h : ReachInv c) :
    ReachInv c.componentWillUnmount :=
  reachInv_clearPolling (reachInv_clearDataRequests (reachInv_withIgnore h))

theorem reachInv_applyOp {c : Component} (h : ReachInv c) (o : Op) :
    ReachInv (applyOp c o) := by
  cases o with
  | update next => exact reachInv_cwrp h next
  | refresh => exact reachInv_resetData h c.props
  | stopFetching => exact reachInv_clearDataRequests h
  | stopPolling => exact reachInv_clearPolling h
  | resumePolling =>
      exact reachInv_startPolling (reachInv_clearPolling h)
        (clearPolling_activeTimers_of h.1) c.props
  | unmount => exact reachInv_unmount h
  | success req d => exact reachInv_deliverSuccess h req d
  | error req sc st e => exact reachInv_deliverError h req sc st e
  | elapse => exact reachInv_elapse h

theorem reachInv_run {c : Component} (h : ReachInv c) (ops : List Op) :
    ReachInv (run c ops) := by
  induction ops generalizing c with
  | nil => exact h
  | cons o ops ih => exact ih (reachInv_applyOp h o)

theorem reachInv_mkComponent (p : Props) (f : Option (Props → Option String)) :
    ReachInv (mkComponent p f) := by
  unfold mkComponent
  have hbase : ReachInv
      { props := p, getDataUrlFn := f
        state := { isFetchingData := false, dataError := none, payload := none }
        xhrRequests := [], pollIntervalId := none, ignoreXhrRequestCallbacks := false
        activeTimers := [], nextTimerId := 0, nextReqId := 0
        getsIssued := [], aborts := [], updates := [], onErrorCalls := [] } := by
    exact ⟨⟨fun _ => rfl, fun i hi => by simp at hi⟩, rfl⟩
  cases hs : shouldWePoll p with
  | false =>
      rw [mount_eq_nopoll hs]
      exact reachInv_resetData (reachInv_clearDataRequests hbase) _
  | true =>
      rw [mount_eq_poll hs]
      refine reachInv_startPolling
        (reachInv_resetData (reachInv_clearDataRequests hbase) _) ?_ _
      rw [resetData_activeTimers]
      rfl

/-! ### Persistence of the teardown flag -/

theorem unmount_ignore (c : Component) :
    c.componentWillUnmount.ignoreXhrRequestCallbacks = true := rfl

theorem ignore_applyOp {c : Component} (h : c.ignoreXhrRequestCallbacks = true)
    (o : Op) : (applyOp c o).ignoreXhrRequestCallbacks = true := by
  cases o with
  | update next => rw [applyOp, cwrp_ignore]; exact h
  | refresh => simpa [applyOp, Component.refreshData] using h
  | stopFetching => simpa [applyOp, Component.stopFetching] using h
  | stopPolling => simpa [applyOp, Component.stopPolling] using h
  | resumePolling => simpa [applyOp, Component.resumePolling] using h
  | unmount => exact unmount_ignore _
  | success req d => simpa [applyOp] using h
  | error req sc st e => simpa [applyOp] using h
  | elapse => simpa [applyOp] using h

theorem ignore_run {c : Component} (h : c.ignoreXhrRequestCallbacks = true)
    (ops : List Op) : (run c ops).ignoreXhrRequestCallbacks = true := by
  induction ops generalizing c with
  | nil => exact h
  | cons o ops ih => exact ih (ignore_applyOp h o)

theorem timerInv_length_le {c : Component} (h : TimerInv c) :
    c.activeTimers.length ≤ 1 := by
  cases hp : c.pollIntervalId with
  | none => simp [h.1 hp]
  | some i => obtain ⟨t, ht, _⟩ := h.2 i hp; simp [ht]

theorem resumePolling_timers_length {c : Component} (h : TimerInv c) :
    c.resumePolling.activeTimers.length = 1 := by
  unfold Component.resumePolling
  rw [startPolling_activeTimers, clearPolling_activeTimers_of h]
  rfl

theorem iter_resume_of_one {c : Component} (m : Nat) (h : ReachInv c)
    (h1 : c.activeTimers.length = 1) :
    ReachInv (iterOp Component.resumePolling m c) ∧
      (iterOp Component.resumePolling m c).activeTimers.length = 1 := by
  induction m generalizing c with
  | zero => exact ⟨h, h1⟩
  | succ m ih =>
      have hre : ReachInv c.resumePolling := by
        simpa [applyOp] using reachInv_applyOp h Op.resumePolling
      exact ih hre (resumePolling_timers_length h.1)

theorem iter_elapse_gets {c : Component} (k : Nat) (h : ReachInv c)
    (h1 : c.activeTimers.length = 1) :
    (iterOp Component.elapse k c).getsIssued.length = c.getsIssued.length + k := by
  induction k generalizing c with
  | zero => rfl
  | succ k ih =>
      have hre : ReachInv c.elapse := reachInv_elapse h
      have h1e : c.elapse.activeTimers.length = 1 := by simpa using h1
      have := ih hre h1e
      rw [iterOp] at *
      rw [this, elapse_getsIssued, List.length_append, List.length_map, h1]
      omega

/-! ### Claim theorems -/

/-- C1 counterexample: the claim says no success *or* error callback delivered
after teardown mutates state, but the success callback
(`receiveDataFromServer`) carries no teardown guard: delivering it on a
torn-down component emits one more `setState` notification. -/
theorem C1_counterexample :
    tornComponent.ignoreXhrRequestCallbacks = true ∧
    (tornComponent.deliverSuccess { id := 0, url := some "a" } 42).updates.length =
      tornComponent.updates.length + 1 := by
  constructor
  · rfl
  · rfl

/-- C1 (amended): after `componentWillUnmount` has occurred, no *error*
callback delivered later — however many further operations intervene — mutates
the state, emits a notification, or calls the external error hook; success
callbacks are not guarded (the code relies on `abort()` preventing them). -/
theorem C1_amended_theorem (p : Props) (f : Option (Props → Option String))
    (ops1 ops2 : List Op) (req : Request) (sc : Nat) (st e : String) :
    ((afterTeardown p f ops1 ops2).deliverError req sc st e).updates =
      (afterTeardown p f ops1 ops2).updates ∧
    ((afterTeardown p f ops1 ops2).deliverError req sc st e).state =
      (afterTeardown p f ops1 ops2).state ∧
    ((afterTeardown p f ops1 ops2).deliverError req sc st e).onErrorCalls =
      (afterTeardown p f ops1 ops2).onErrorCalls := by
  have hflag : (afterTeardown p f ops1 ops2).ignoreXhrRequestCallbacks = true := by
    unfold afterTeardown
    exact ignore_run (unmount_ignore _) ops2
  rw [deliverError_of_ignore hflag]
  exact ⟨rfl, rfl, rfl⟩

/-- C2 counterexample: with a custom resolver reading other props, a prop
update can change the *effective* URL while the raw `dataUrl` prop is
unchanged; `componentWillReceiveProps` then starts no fresh fetch and cancels
nothing, contradicting "fresh fetch iff effective URL changed". -/
theorem C2_counterexample :
    resolverComponent.resolveDataUrl resolverNext ≠
      resolverComponent.resolveDataUrl resolverComponent.props ∧
    (resolverComponent.componentWillReceiveProps resolverNext).getsIssued =
      resolverComponent.getsIssued ∧
    (resolverComponent.componentWillReceiveProps resolverNext).aborts =
      resolverComponent.aborts := by
  have hu := cwrp_eq_unchanged
    (show resolverComponent.props.dataUrl = resolverNext.dataUrl from rfl)
    (show resolverComponent.props.pollInterval = resolverNext.pollInterval from rfl)
  refine ⟨by decide, ?_, ?_⟩
  · rw [hu]
  · rw [hu]

/-- C2 (amended): `componentWillReceiveProps` compares the raw `dataUrl` prop
(not the resolver-applied effective URL) against the previous one; a fresh
fetch — targeting the newly resolved URL, preceded by aborting the in-flight
requests — happens exactly when the raw `dataUrl` changed (and the resolved
URL is truthy). -/
theorem C2_amended_theorem (c : Component) (next : Props) :
    (c.componentWillReceiveProps next).getsIssued =
      c.getsIssued ++
        (if c.props.dataUrl = next.dataUrl then []
         else fetchOf (c.resolveDataUrl next)) ∧
    (c.componentWillReceiveProps next).aborts =
      c.aborts ++
        (if c.props.dataUrl = next.dataUrl then []
         else c.xhrRequests.reverse.map Request.id) := by
  by_cases h1 : c.props.dataUrl = next.dataUrl
  · by_cases h2 : c.props.pollInterval = next.pollInterval
    · rw [cwrp_eq_unchanged h1 h2]; simp [h1]
    · cases h3 : shouldWePoll next
      · rw [cwrp_eq_pollChanged_nostart h1 h2 h3]; simp [h1]
      · rw [cwrp_eq_pollChanged_start h1 h2 h3]; simp [h1]
  · have hres : c.clearPolling.resolveDataUrl next = c.resolveDataUrl next :=
      resolveDataUrl_eq (clearPolling_getDataUrlFn c) next
    cases h3 : shouldWePoll next
    · rw [cwrp_eq_urlChanged_nostart h1 h3]
      constructor
      · show (c.clearPolling.resetData next).getsIssued = _
        rw [resetData_getsIssued, hres]; simp [h1]
      · show (c.clearPolling.resetData next).aborts = _
        rw [resetData_aborts]; simp [h1]
    · rw [cwrp_eq_urlChanged_start h1 h3]
      constructor
      · show ((c.clearPolling.resetData next).startPolling next).getsIssued = _
        rw [startPolling_getsIssued, resetData_getsIssued, hres]; simp [h1]
      · show ((c.clearPolling.resetData next).startPolling next).aborts = _
        rw [startPolling_aborts, resetData_aborts]; simp [h1]

/-- C3: when teardown has not occurred, the error callback sets
`isFetchingData=false` and
`dataError={url, statusCode, statusText, message}` (the url being the one the
`onError` closure captured) and invokes the external `options.onError` hook
with the original arguments (the source applies it on the original `this`);
after teardown the same delivery mutates no state and calls no hook. -/
theorem C3_theorem (c : Component) (req : Request) (sc : Nat) (st e : String) :
    (c.ignoreXhrRequestCallbacks = false →
      (c.deliverError req sc st e).state.isFetchingData = false ∧
      (c.deliverError req sc st e).state.dataError =
        some { url := req.url, statusCode := sc, statusText := st, message := e } ∧
      (c.deliverError req sc st e).onErrorCalls = c.onErrorCalls ++ [(sc, st, e)]) ∧
    (c.ignoreXhrRequestCallbacks = true →
      (c.deliverError req sc st e).updates = c.updates ∧
      (c.deliverError req sc st e).state = c.state ∧
      (c.deliverError req sc st e).onErrorCalls = c.onErrorCalls) := by
  constructor
  · intro hf
    rw [deliverError_of_live hf]
    exact ⟨rfl, rfl, rfl⟩
  · intro hf
    rw [deliverError_of_ignore hf]
    exact ⟨rfl, rfl, rfl⟩

/-- C3 witness: a live component records the 503 error and hook call; the
torn-down component ignores the same delivery. -/
theorem C3_witness :
    ((mkComponent { dataUrl := some "a", pollInterval := 0, extra := 0 }
        none).deliverError { id := 0, url := some "a" } 503 "error" "boom").state.dataError =
      some { url := some "a", statusCode := 503, statusText := "error", message := "boom" } ∧
    (tornComponent.deliverError { id := 0, url := some "a" } 503 "error" "boom").updates =
      tornComponent.updates := by
  refine ⟨?_, ?_⟩
  · exact ((C3_theorem (mkComponent { dataUrl := some "a", pollInterval := 0, extra := 0 }
      none) { id := 0, url := some "a" } 503 "error" "boom").1 rfl).2.1
  · exact ((C3_theorem tornComponent { id := 0, url := some "a" } 503 "error" "boom").2 rfl).1

/-- C4: updating with props whose `dataUrl` and `pollInterval` equal the
current ones only installs the new props object: no GET is issued, no abort
happens, and the timer environment (live timers, timer id, timer counter) is
untouched. -/
theorem C4_theorem (c : Component) (next : Props)
    (h1 : c.props.dataUrl = next.dataUrl) (h2 : c.props.pollInterval = next.pollInterval) :
    c.componentWillReceiveProps next = { c with props := next } ∧
    (c.componentWillReceiveProps next).getsIssued = c.getsIssued ∧
    (c.componentWillReceiveProps next).aborts = c.aborts ∧
    (c.componentWillReceiveProps next).activeTimers = c.activeTimers ∧
    (c.componentWillReceiveProps next).pollIntervalId = c.pollIntervalId ∧
    (c.componentWillReceiveProps next).nextTimerId = c.nextTimerId := by
  have h := cwrp_eq_unchanged h1 h2
  rw [h]
  exact ⟨rfl, rfl, rfl, rfl, rfl, rfl⟩

/-- C4 witness: a concrete no-op update (only `extra` differs). -/
theorem C4_witness :
    ((mkComponent { dataUrl := some "a", pollInterval := 0, extra := 0 } none
        ).componentWillReceiveProps { dataUrl := some "a", pollInterval := 0, extra := 7 }
      ).getsIssued =
      (mkComponent { dataUrl := some "a", pollInterval := 0, extra := 0 } none).getsIssued :=
  (C4_theorem (mkComponent { dataUrl := some "a", pollInterval := 0, extra := 0 } none)
    { dataUrl := some "a", pollInterval := 0, extra := 7 } rfl rfl).2.1

/-- C5: from any reachable state at most one recurring timer is live; after any
positive number of consecutive `resumePolling` calls exactly one timer is live,
and `k` elapsed intervals then issue exactly `k` poll GETs (no duplicate
timers). -/
theorem C5_theorem (p : Props) (f : Option (Props → Option String)) (ops : List Op)
    (n k : Nat) (hn : 1 ≤ n) :
    (run (mkComponent p f) ops).activeTimers.length ≤ 1 ∧
    (iterOp Component.resumePolling n (run (mkComponent p f) ops)).activeTimers.length = 1 ∧
    (iterOp Component.elapse k
        (iterOp Component.resumePolling n (run (mkComponent p f) ops))).getsIssued.length =
      (iterOp Component.resumePolling n (run (mkComponent p f) ops)).getsIssued.length + k := by
  have hreach : ReachInv (run (mkComponent p f) ops) :=
    reachInv_run (reachInv_mkComponent p f) ops
  obtain ⟨m, rfl⟩ : ∃ m, n = m + 1 := ⟨n - 1, by omega⟩
  have hre : ReachInv (run (mkComponent p f) ops).resumePolling := by
    simpa [applyOp] using reachInv_applyOp hreach Op.resumePolling
  have hpair := iter_resume_of_one m hre (resumePolling_timers_length hreach.1)
  exact ⟨timerInv_length_le hreach.1, hpair.2, iter_elapse_gets k hpair.1 hpair.2⟩

/-- C5 witness: a mounted polling component, one `resumePolling`, two elapsed
intervals, two poll GETs. -/
theorem C5_witness :
    1 ≤ 1 ∧
    ((run (mkComponent pollProps none) []).activeTimers.length ≤ 1 ∧
     (iterOp Component.resumePolling 1 (run (mkComponent pollProps none) [])).activeTimers.length = 1 ∧
     (iterOp Component.elapse 2
         (iterOp Component.resumePolling 1 (run (mkComponent pollProps none) []))).getsIssued.length =
       (iterOp Component.resumePolling 1 (run (mkComponent pollProps none) [])).getsIssued.length + 2) :=
  ⟨by decide, C5_theorem pollProps none [] 1 2 (by decide)⟩

/-- C6 counterexample: in a reachable state with a standing error and a falsy
current URL, `refreshData` issues no fetch at all and the error is not reset —
the claimed "unconditionally issues a new fetch … resetting error to null"
fails. -/
theorem C6_counterexample :
    c6NoUrl.state.dataError.isSome = true ∧
    c6NoUrl.refreshData.getsIssued = c6NoUrl.getsIssued ∧
    c6NoUrl.refreshData.state.dataError = c6NoUrl.state.dataError := by
  exact ⟨by decide, by decide, by decide⟩

/-- C6 (amended): whenever the URL re-resolved from the current config is
truthy, `refreshData` aborts pending requests and issues a new fetch to that
URL, setting `isFetchingData=true` and `dataError=null`, regardless of prior
error/success state; with a falsy resolved URL it only aborts. -/
theorem C6_amended_theorem (c : Component) (u : String)
    (h : c.resolveDataUrl c.props = some u) :
    c.refreshData.getsIssued = c.getsIssued ++ [some u] ∧
    c.refreshData.state.isFetchingData = true ∧
    c.refreshData.state.dataError = none ∧
    c.refreshData.aborts = c.aborts ++ c.xhrRequests.reverse.map Request.id := by
  unfold Component.refreshData
  rw [resetData_of_some h]
  exact ⟨by simp, by simp, by simp, by simp⟩

/-- C6 witness: refreshing a plain component re-fetches its URL. -/
theorem C6_witness :
    (mkComponent { dataUrl := some "a", pollInterval := 0, extra := 0 } none).resolveDataUrl
        (mkComponent { dataUrl := some "a", pollInterval := 0, extra := 0 } none).props =
      some "a" ∧
    (mkComponent { dataUrl := some "a", pollInterval := 0, extra := 0 } none).refreshData.getsIssued =
      (mkComponent { dataUrl := some "a", pollInterval := 0, extra := 0 } none).getsIssued ++
        [some "a"] :=
  ⟨by decide,
   (C6_amended_theorem (mkComponent { dataUrl := some "a", pollInterval := 0, extra := 0 } none)
      "a" (by decide)).1⟩

/-- C7: URL resolution uses the custom `getDataUrl` context method — applied to
the given props, its return value is the effective URL whatever the plain
`dataUrl` field holds — and falls back to the plain `dataUrl` prop exactly when
no resolver is supplied. -/
theorem C7_theorem (c : Component) (p : Props) :
    (∀ f, c.getDataUrlFn = some f → c.resolveDataUrl p = f p) ∧
    (c.getDataUrlFn = none → c.resolveDataUrl p = p.dataUrl) := by
  constructor
  · intro f hf
    simp [Component.resolveDataUrl, hf]
  · intro hf
    simp [Component.resolveDataUrl, hf]

/-- C7 witness: with a resolver the plain `dataUrl` ("x") is ignored in favour
of the resolver's result ("r"); without one, "x" is used. -/
theorem C7_witness :
    (mkComponent { dataUrl := some "x", pollInterval := 0, extra := 0 }
        (some (fun _ => some "r"))).resolveDataUrl
      { dataUrl := some "x", pollInterval := 0, extra := 0 } = some "r" ∧
    (mkComponent { dataUrl := some "x", pollInterval := 0, extra := 0 }
        none).resolveDataUrl
      { dataUrl := some "x", pollInterval := 0, extra := 0 } = some "x" :=
  ⟨(C7_theorem (mkComponent { dataUrl := some "x", pollInterval := 0, extra := 0 }
      (some (fun _ => some "r"))) { dataUrl := some "x", pollInterval := 0, extra := 0 }).1
      (fun _ => some "r") rfl,
   (C7_theorem (mkComponent { dataUrl := some "x", pollInterval := 0, extra := 0 }
      none) { dataUrl := some "x", pollInterval := 0, extra := 0 }).2 rfl⟩

theorem mkComponent_timers_length (p : Props) (f : Option (Props → Option String))
    (hs : shouldWePoll p = true) : (mkComponent p f).activeTimers.length = 1 := by
  unfold mkComponent
  simp [Component.componentWillMount, resetData_props, hs]

theorem mkComponent_timers_nil (p : Props) (f : Option (Props → Option String))
    (hs : shouldWePoll p = false) : (mkComponent p f).activeTimers = [] := by
  unfold mkComponent
  simp [Component.componentWillMount, resetData_props, hs]

/-- C8: in every reachable state the `setState` log holds exactly one
`{isFetchingData: true, dataError: null}` notification per GET ever issued —
every fetch start (mount, URL change, refresh, poll tick) emits it — and
`_fetchDataFromServer` always appends exactly that update, leaving the
component fetching with a cleared error. -/
theorem C8_theorem (p : Props) (f : Option (Props → Option String)) (ops : List Op) :
    fetchStartCount (run (mkComponent p f) ops).updates =
      (run (mkComponent p f) ops).getsIssued.length ∧
    (∀ c : Component, ∀ url : Option String,
      (c.fetchDataFromServer url).updates = c.updates ++ [fetchStartUpdate] ∧
      (c.fetchDataFromServer url).state.isFetchingData = true ∧
      (c.fetchDataFromServer url).state.dataError = none) :=
  ⟨(reachInv_run (reachInv_mkComponent p f) ops).2,
   fun c url => ⟨by simp, by simp, by simp⟩⟩

/-- C9 counterexample: the poll callback closes over the URL resolved when the
timer was registered.  After a prop update that changes what the resolver
returns (but not `dataUrl`/`pollInterval`), the tick-time resolution is "b"
while the tick still GETs "a" — refuting "targets the URL as resolved at the
time of that tick". -/
theorem C9_counterexample :
    c9c1.resolveDataUrl c9c1.props = some "b" ∧
    c9c1.elapse.getsIssued = c9c1.getsIssued ++ [some "a"] ∧
    (some "a" : Option String) ≠ some "b" := by
  exact ⟨by decide, by decide, by decide⟩

/-- C9 (amended): with `pollInterval > 0` mounting registers exactly one timer;
when one timer `t` is live, one elapsed interval issues exactly one GET, and it
targets `t`'s captured URL — the URL resolved when `_startPolling` ran, not
re-resolved at tick time. -/
theorem C9_amended_theorem (p : Props) (f : Option (Props → Option String))
    (ops : List Op) (t : Timer) (hp : shouldWePoll p = true)
    (ht : (run (mkComponent p f) ops).activeTimers = [t]) :
    (mkComponent p f).activeTimers.length = 1 ∧
    (run (mkComponent p f) ops).elapse.getsIssued =
      (run (mkComponent p f) ops).getsIssued ++ [t.url] ∧
    (∀ c : Component, ∀ q : Props,
      (c.startPolling q).activeTimers =
        c.activeTimers ++
          [{ id := c.nextTimerId, url := c.resolveDataUrl q, interval := q.pollInterval }]) := by
  refine ⟨mkComponent_timers_length p f hp, ?_, fun c q => by simp⟩
  rw [elapse_getsIssued, ht]
  simp

/-- C9 witness: a freshly mounted polling component; its single timer's
captured URL is the mount-time resolution. -/
theorem C9_witness :
    shouldWePoll pollProps = true ∧
    (run (mkComponent pollProps none) []).activeTimers =
      [{ id := 0, url := some "u", interval := 5 }] ∧
    (run (mkComponent pollProps none) []).elapse.getsIssued =
      (run (mkComponent pollProps none) []).getsIssued ++ [some "u"] :=
  ⟨by decide, by decide,
   (C9_amended_theorem pollProps none [] { id := 0, url := some "u", interval := 5 }
      (by decide) (by decide)).2.1⟩

/-- C10: `resumePolling` registers a recurring timer unconditionally from the
current props — even with `pollInterval = 0` it consumes a fresh timer id,
leaves exactly one live timer carrying the current (possibly zero) interval,
and that timer's tick issues a fetch — whereas mount registers no timer when
`pollInterval = 0` and `componentWillReceiveProps` consumes no timer id when
the next `pollInterval` is 0. -/
theorem C10_theorem (p : Props) (f : Option (Props → Option String)) (ops : List Op) :
    ((run (mkComponent p f) ops).resumePolling.nextTimerId =
        (run (mkComponent p f) ops).nextTimerId + 1 ∧
     (run (mkComponent p f) ops).resumePolling.activeTimers.length = 1 ∧
     (∀ t ∈ (run (mkComponent p f) ops).resumePolling.activeTimers,
        t.interval = (run (mkComponent p f) ops).props.pollInterval) ∧
     (run (mkComponent p f) ops).resumePolling.elapse.getsIssued.length =
       (run (mkComponent p f) ops).resumePolling.getsIssued.length + 1) ∧
    (p.pollInterval = 0 → (mkComponent p f).activeTimers = []) ∧
    (∀ next, next.pollInterval = 0 →
      ((run (mkComponent p f) ops).componentWillReceiveProps next).nextTimerId =
        (run (mkComponent p f) ops).nextTimerId) := by
  have hreach : ReachInv (run (mkComponent p f) ops) :=
    reachInv_run (reachInv_mkComponent p f) ops
  refine ⟨⟨?_, resumePolling_timers_length hreach.1, ?_, ?_⟩, ?_, ?_⟩
  · simp [Component.resumePolling]
  · intro t htmem
    simp only [Component.resumePolling, startPolling_activeTimers,
      clearPolling_activeTimers_of hreach.1, List.nil_append, List.mem_singleton] at htmem
    subst htmem
    simp
  · rw [elapse_getsIssued, List.length_append, List.length_map,
      resumePolling_timers_length hreach.1]
  · intro h0
    exact mkComponent_timers_nil p f (by simp [Component.shouldWePoll, h0])
  · intro next h0
    have hs : shouldWePoll next = false := by simp [Component.shouldWePoll, h0]
    by_cases h1 : (run (mkComponent p f) ops).props.dataUrl = next.dataUrl
    · by_cases h2 : (run (mkComponent p f) ops).props.pollInterval = next.pollInterval
      · rw [cwrp_eq_unchanged h1 h2]
      · rw [cwrp_eq_pollChanged_nostart h1 h2 hs]; simp
    · rw [cwrp_eq_urlChanged_nostart h1 hs]; simp

/-- C10 witness: with `pollInterval = 0`, mount registers no timer and a
same-interval update consumes no timer id, yet `resumePolling` leaves one live
timer. -/
theorem C10_witness :
    zeroProps.pollInterval = 0 ∧
    (run (mkComponent zeroProps none) []).resumePolling.activeTimers.length = 1 ∧
    (mkComponent zeroProps none).activeTimers = [] ∧
    ((run (mkComponent zeroProps none) []).componentWillReceiveProps
        { dataUrl := some "b", pollInterval := 0, extra := 0 }).nextTimerId =
      (run (mkComponent zeroProps none) []).nextTimerId := by
  have h := C10_theorem zeroProps none []
  exact ⟨by decide, h.1.2.1, h.2.1 (by decide),
    h.2.2 { dataUrl := some "b", pollInterval := 0, extra := 0 } (by decide)⟩
